import Mathlib

/-!
Verification development for the grocery-management backend (src/main.py).

The file shallowly embeds the data model (ProductORM, TransactionORM), the
request schemas (ProductCreate, ProductUpdate, TransactionCreate) and the
mutating endpoint handlers (create_product, update_product, purchase) as pure
Lean functions over an explicit database state.

Modelling conventions:
- Monetary values (Numeric(10,2)) are fixed-point with two decimal digits; we
  embed them as integers counting hundredths, which is exact.
- Timestamps are abstract instants embedded as naturals.  Each call of
  datetime.utcnow() in a handler is a separate clock reading; a handler that
  calls utcnow() twice therefore takes two timestamp parameters, one per call,
  in source order.  Any pair of readings with the first not after the second is
  realizable by the real clock.
- The SQLite session commits at most once, at the end of a handler; a raised
  HTTPException means the session is closed without commit, so the committed
  state is unchanged.  Hence a handler is a function returning
  Except ApiError (Db × result): the committed post-state is the returned
  database on success and the input database on error.
- Primary-key columns are modelled by counters nextProductId / nextTxId; the
  unique constraint on products.name (SQLite BINARY collation, hence
  case-sensitive) becomes an explicit membership test, which is exactly when
  db.commit() raises IntegrityError in the source.
- Lists keep physical insertion order (the ORM appends rows); query ordering
  by created_at descending is not needed by the claims below.
-/

/-- Whitespace as stripped by the Python str.strip() method (restricted to the
ASCII whitespace characters; the claims only involve these). -/
def pyIsSpace (c : Char) : Bool :=
  c = ' ' || c = '\t' || c = '\n' || c = '\r' || c = Char.ofNat 11 || c = Char.ofNat 12

/-- Python str.strip(): drop leading and trailing whitespace. -/
def pyStrip (s : String) : String :=
  ⟨((s.data.dropWhile pyIsSpace).reverse.dropWhile pyIsSpace).reverse⟩

/-- A row of the products table (ProductORM, src/main.py lines 32-43). -/
structure Product where
  id : Nat
  name : String
  category : Option String
  price : Int
  stock : Int
  description : Option String
  created_at : Nat
  updated_at : Nat
deriving Repr, DecidableEq, Inhabited

/-- A row of the transactions table (TransactionORM, src/main.py lines 45-55). -/
structure Transaction where
  id : Nat
  product_id : Nat
  type : String
  quantity : Int
  unit_price : Int
  note : Option String
  created_at : Nat
deriving Repr, DecidableEq, Inhabited

/-- The committed database state: both tables plus the autoincrement counters. -/
structure Db where
  products : List Product
  transactions : List Transaction
  nextProductId : Nat
  nextTxId : Nat
deriving Repr, DecidableEq, Inhabited

/-- The distinct error signals raised by the handlers (HTTPException cases). -/
inductive ApiError where
  /-- 400 "Invalid type. Use purchase or sale." (line 224) -/
  | invalidKind
  /-- 404 "Product not found" in the purchase handler (line 227) -/
  | productNotFound
  /-- 400 "Insufficient stock for sale" (line 231) -/
  | insufficientStock
  /-- 400 "Product with this name already exists" (lines 166, 190) -/
  | duplicateName
  /-- 404 "Product not found" in update/delete (lines 173, 197) -/
  | notFound
deriving Repr, DecidableEq

/-- Request body of POST /api/transactions/purchase (TransactionCreate,
lines 89-94).  quantity is a pydantic PositiveInt: the boundary guarantees
quantity >= 1 before the handler runs. -/
structure TransactionCreate where
  product_id : Nat
  type : String
  quantity : Int
  unit_price : Int
  note : Option String
deriving Repr, DecidableEq, Inhabited

/-- Request body of POST /api/products (ProductCreate, lines 62-67). -/
structure ProductCreate where
  name : String
  category : Option String
  price : Int
  stock : Int
  description : Option String
deriving Repr, DecidableEq, Inhabited

/-- Request body of PUT /api/products/id (ProductUpdate, lines 69-74). -/
structure ProductUpdate where
  name : Option String
  category : Option String
  price : Option Int
  stock : Option Int
  description : Option String
deriving Repr, DecidableEq, Inhabited

/-- db.query(ProductORM).filter(ProductORM.id == pid).first() -/
def getProduct (db : Db) (pid : Nat) : Option Product :=
  db.products.find? (fun q => q.id == pid)

/-- The product row written back by the purchase handler (src/main.py lines
233-238): stock is increased by the quantity for a purchase, decreased for a
sale, and updated_at is set to the utcnow reading t1 of line 238. -/
def adjustedRow (product : Product) (p : TransactionCreate) (t1 : Nat) : Product :=
  { product with
      stock := if p.type = "purchase" then product.stock + p.quantity
               else product.stock - p.quantity,
      updated_at := t1 }

/-- The transaction row built by the purchase handler (src/main.py lines
240-247): the id is assigned by the autoincrement column, created_at is the
utcnow reading t2 of line 246. -/
def newTx (db : Db) (product : Product) (p : TransactionCreate) (t2 : Nat) :
    Transaction :=
  { id := db.nextTxId, product_id := product.id, type := p.type,
    quantity := p.quantity, unit_price := p.unit_price,
    note := p.note, created_at := t2 }

/-- The purchase handler (src/main.py lines 221-262), i.e. the Transaction
Processor apply operation.  t1 and t2 are the readings of the two
datetime.utcnow() calls, at line 238 (product.updated_at) and line 246
(tx.created_at) respectively.  On success it returns the committed database
and the appended transaction row; a raised HTTPException becomes an error
value and the committed state stays the input database. -/
def purchase (db : Db) (p : TransactionCreate) (t1 t2 : Nat) :
    Except ApiError (Db × Transaction) :=
  -- line 223: if payload.type not in ("purchase", "sale")
  if ¬(p.type = "purchase" ∨ p.type = "sale") then
    .error .invalidKind
  else
    -- line 225: first product row with matching id
    match getProduct db p.product_id with
    | none => .error .productNotFound          -- line 227
    | some product =>
      -- line 230: sale with stock < qty
      if p.type = "sale" ∧ product.stock < p.quantity then
        .error .insufficientStock
      else
        -- lines 233-250: adjust stock, stamp updated_at, append the row, commit
        .ok ({ db with
                products := db.products.map (fun q =>
                  if q.id == p.product_id then adjustedRow product p t1 else q),
                transactions := db.transactions ++ [newTx db product p t2],
                nextTxId := db.nextTxId + 1 },
              newTx db product p t2)

/-- The committed database after a call of the purchase endpoint: the returned
state on success, the unchanged input state when the handler raised (the
session is closed without commit). -/
def purchaseState (db : Db) (p : TransactionCreate) (t1 t2 : Nat) : Db :=
  match purchase db p t1 t2 with
  | .ok (db', _) => db'
  | .error _ => db

/-- The create_product handler (src/main.py lines 149-167).  t1 and t2 are the
readings of the utcnow() calls at lines 157 (created_at) and 158 (updated_at).
The duplicate test models the unique constraint on products.name that makes
db.commit() raise IntegrityError. -/
def create_product (db : Db) (p : ProductCreate) (t1 t2 : Nat) :
    Except ApiError (Db × Product) :=
  -- lines 151-159: build the row; the name is stripped, empty category
  -- is normalised to None by `payload.category or None`
  if db.products.any (fun q => q.name == pyStrip p.name) then
    .error .duplicateName
  else
    .ok ({ db with
            products := db.products ++
              [{ id := db.nextProductId, name := pyStrip p.name,
                 category := match p.category with
                             | some c => if c = "" then none else some c
                             | none => none,
                 price := p.price, stock := p.stock,
                 description := p.description,
                 created_at := t1, updated_at := t2 }],
            nextProductId := db.nextProductId + 1 },
          { id := db.nextProductId, name := pyStrip p.name,
            category := match p.category with
                        | some c => if c = "" then none else some c
                        | none => none,
            price := p.price, stock := p.stock,
            description := p.description,
            created_at := t1, updated_at := t2 })

/-- The committed database after a call of the create endpoint. -/
def createState (db : Db) (p : ProductCreate) (t1 t2 : Nat) : Db :=
  match create_product db p t1 t2 with
  | .ok (db', _) => db'
  | .error _ => db

/-- The product row after the field assignments of the update handler
(src/main.py lines 174-184): each provided field overwrites the stored one,
the name is stripped, and updated_at is set to the utcnow reading t of
line 184. -/
def updatedRow (product : Product) (p : ProductUpdate) (t : Nat) : Product :=
  { product with
      name := match p.name with | some n => pyStrip n | none => product.name,
      category := match p.category with | some c => some c | none => product.category,
      price := match p.price with | some v => v | none => product.price,
      stock := match p.stock with | some v => v | none => product.stock,
      description := match p.description with | some d => some d | none => product.description,
      updated_at := t }

/-- The update_product handler (src/main.py lines 169-191).  t is the reading
of the utcnow() call at line 184.  The duplicate test models the unique
constraint on products.name: commit raises IntegrityError exactly when the
stored name now collides with a different row. -/
def update_product (db : Db) (pid : Nat) (p : ProductUpdate) (t : Nat) :
    Except ApiError (Db × Product) :=
  match getProduct db pid with
  | none => .error .notFound                   -- line 173
  | some product =>
    -- lines 174-190: apply the fields, then commit
    if db.products.any (fun q => q.id != pid && q.name == (updatedRow product p t).name) then
      .error .duplicateName
    else
      .ok ({ db with
              products := db.products.map (fun q =>
                if q.id == pid then updatedRow product p t else q) },
            updatedRow product p t)

/-- Folding a sequence of purchase-endpoint calls over the committed state:
each element carries the request body and the two clock readings of that call;
a failed call leaves the committed state unchanged (purchaseState). -/
def applySeq (db : Db) (ops : List (TransactionCreate × Nat × Nat)) : Db :=
  ops.foldl (fun d o => purchaseState d o.1 o.2.1 o.2.2) db

/-! ## Helper lemmas about the embedded store operations -/

/-- A row returned by the id query satisfies the filter. -/
theorem getProduct_id {db : Db} {pid : Nat} {prod : Product}
    (h : getProduct db pid = some prod) : prod.id = pid := by
  unfold getProduct at h
  have hp := List.find?_some h
  exact beq_iff_eq.mp hp

/-- A row returned by the id query is in the table. -/
theorem getProduct_mem {db : Db} {pid : Nat} {prod : Product}
    (h : getProduct db pid = some prod) : prod ∈ db.products := by
  unfold getProduct at h
  exact List.mem_of_find?_eq_some h

/-- Updating the row matched by an id rewrites what the id query returns. -/
theorem find?_map_update (pid : Nat) (newP : Product) (hid : newP.id = pid) :
    ∀ (l : List Product) (prod : Product),
      l.find? (fun q => q.id == pid) = some prod →
      (l.map (fun q => if q.id == pid then newP else q)).find?
        (fun q => q.id == pid) = some newP := by
  intro l
  induction l with
  | nil => intro prod hf; simp [List.find?] at hf
  | cons a l ih =>
    intro prod hf
    by_cases ha : a.id = pid
    · simp [List.find?, beq_iff_eq, ha, hid]
    · have hb : (a.id == pid) = false := beq_eq_false_iff_ne.mpr ha
      rw [List.find?_cons_of_neg _ (by simp [hb])] at hf
      simp only [List.map_cons, hb, Bool.false_eq_true, if_false]
      rw [List.find?_cons_of_neg _ (by simp [hb])]
      exact ih prod hf

/-- Updating the row matched by one id leaves queries for any other id
unchanged. -/
theorem find?_map_frame (pid pid2 : Nat) (newP : Product) (hid : newP.id = pid)
    (hne : pid2 ≠ pid) :
    ∀ l : List Product,
      (l.map (fun q => if q.id == pid then newP else q)).find?
        (fun q => q.id == pid2) = l.find? (fun q => q.id == pid2) := by
  intro l
  induction l with
  | nil => simp
  | cons a l ih =>
    by_cases ha : a.id = pid
    · have h1 : (a.id == pid) = true := beq_iff_eq.mpr ha
      have h2 : (a.id == pid2) = false := beq_eq_false_iff_ne.mpr (by omega)
      have h3 : (newP.id == pid2) = false := beq_eq_false_iff_ne.mpr (by omega)
      simp only [List.map_cons, h1, if_true]
      rw [List.find?_cons_of_neg _ (by simp [h3]),
          List.find?_cons_of_neg _ (by simp [h2])]
      exact ih
    · have h1 : (a.id == pid) = false := beq_eq_false_iff_ne.mpr ha
      simp only [List.map_cons, h1, Bool.false_eq_true, if_false]
      by_cases ha2 : a.id = pid2
      · have h2 : (a.id == pid2) = true := beq_iff_eq.mpr ha2
        rw [List.find?_cons_of_pos _ (by simp [h2]),
            List.find?_cons_of_pos _ (by simp [h2])]
      · have h2 : (a.id == pid2) = false := beq_eq_false_iff_ne.mpr ha2
        rw [List.find?_cons_of_neg _ (by simp [h2]),
            List.find?_cons_of_neg _ (by simp [h2])]
        exact ih

/-- Inversion of a successful call of the purchase handler: the validations
passed and the returned state and row have exactly the shape committed at
src/main.py lines 233-251. -/
theorem purchase_ok_inv {db : Db} {p : TransactionCreate} {t1 t2 : Nat}
    {db' : Db} {tx : Transaction}
    (h : purchase db p t1 t2 = .ok (db', tx)) :
    ∃ product,
      (p.type = "purchase" ∨ p.type = "sale") ∧
      getProduct db p.product_id = some product ∧
      ¬(p.type = "sale" ∧ product.stock < p.quantity) ∧
      db'.products = db.products.map (fun q =>
        if q.id == p.product_id then adjustedRow product p t1 else q) ∧
      db'.transactions = db.transactions ++ [tx] ∧
      db'.nextProductId = db.nextProductId ∧
      db'.nextTxId = db.nextTxId + 1 ∧
      tx = newTx db product p t2 := by
  unfold purchase at h
  split at h
  · exact absurd h (by simp)
  next hk =>
    split at h
    · exact absurd h (by simp)
    next product hfind =>
      split at h
      · exact absurd h (by simp)
      next hins =>
        rw [Except.ok.injEq, Prod.mk.injEq] at h
        obtain ⟨hdb, htx⟩ := h
        subst hdb; subst htx
        exact ⟨product, not_not.mp hk, hfind, hins, rfl, rfl, rfl, rfl, rfl⟩

/-- An invalid kind is rejected at line 223, before the product is even
looked up. -/
theorem purchase_invalid_kind {db : Db} {p : TransactionCreate} {t1 t2 : Nat}
    (hk : ¬(p.type = "purchase" ∨ p.type = "sale")) :
    purchase db p t1 t2 = .error .invalidKind := by
  unfold purchase
  rw [if_pos hk]

/-- With a valid kind, a missing product is rejected at line 227. -/
theorem purchase_product_not_found {db : Db} {p : TransactionCreate} {t1 t2 : Nat}
    (hk : p.type = "purchase" ∨ p.type = "sale")
    (hf : getProduct db p.product_id = none) :
    purchase db p t1 t2 = .error .productNotFound := by
  unfold purchase
  rw [if_neg (not_not_intro hk), hf]

/-- A sale exceeding the current stock is rejected at line 231. -/
theorem purchase_insufficient {db : Db} {p : TransactionCreate} {t1 t2 : Nat}
    {prod : Product} (hs : p.type = "sale")
    (hf : getProduct db p.product_id = some prod)
    (hlt : prod.stock < p.quantity) :
    purchase db p t1 t2 = .error .insufficientStock := by
  unfold purchase
  rw [if_neg (not_not_intro (Or.inr hs)), hf]
  exact if_pos ⟨hs, hlt⟩

/-- A raised HTTPException means no commit: the committed state after the call
is the input state. -/
theorem purchaseState_error {db : Db} {p : TransactionCreate} {t1 t2 : Nat}
    {e : ApiError} (h : purchase db p t1 t2 = .error e) :
    purchaseState db p t1 t2 = db := by
  unfold purchaseState
  rw [h]

/-- On success the committed state is the returned database. -/
theorem purchaseState_ok {db : Db} {p : TransactionCreate} {t1 t2 : Nat}
    {db' : Db} {tx : Transaction} (h : purchase db p t1 t2 = .ok (db', tx)) :
    purchaseState db p t1 t2 = db' := by
  unfold purchaseState
  rw [h]

/-- Inversion of a successful call of the create handler. -/
theorem create_ok_inv {db : Db} {p : ProductCreate} {t1 t2 : Nat}
    {db' : Db} {prod : Product}
    (h : create_product db p t1 t2 = .ok (db', prod)) :
    db.products.any (fun q => q.name == pyStrip p.name) = false ∧
    db'.products = db.products ++ [prod] ∧
    db'.transactions = db.transactions ∧
    db'.nextProductId = db.nextProductId + 1 ∧
    db'.nextTxId = db.nextTxId ∧
    prod.name = pyStrip p.name ∧
    prod.id = db.nextProductId ∧
    prod.price = p.price ∧ prod.stock = p.stock ∧
    prod.description = p.description ∧
    prod.created_at = t1 ∧ prod.updated_at = t2 := by
  unfold create_product at h
  split at h
  · exact absurd h (by simp)
  next hdup =>
    rw [Except.ok.injEq, Prod.mk.injEq] at h
    obtain ⟨hdb, hprod⟩ := h
    subst hdb; subst hprod
    exact ⟨Bool.not_eq_true _ ▸ eq_false_of_ne_true hdup, rfl, rfl, rfl, rfl,
           rfl, rfl, rfl, rfl, rfl, rfl, rfl⟩

/-- After a failed create call the committed state is the input state. -/
theorem createState_error {db : Db} {p : ProductCreate} {t1 t2 : Nat}
    {e : ApiError} (h : create_product db p t1 t2 = .error e) :
    createState db p t1 t2 = db := by
  unfold createState
  rw [h]

/-- A successful update that provides a name stores and returns the stripped
name (src/main.py lines 174-175). -/
theorem update_ok_name {db : Db} {pid : Nat} {p : ProductUpdate} {t : Nat}
    {db' : Db} {prod : Product} {n : String} (hn : p.name = some n)
    (h : update_product db pid p t = .ok (db', prod)) :
    prod.name = pyStrip n ∧ prod ∈ db'.products := by
  unfold update_product at h
  split at h
  · exact absurd h (by simp)
  next product hfind =>
    split at h
    · exact absurd h (by simp)
    next hdup =>
      rw [Except.ok.injEq, Prod.mk.injEq] at h
      obtain ⟨hdb, hprod⟩ := h
      subst hdb
      constructor
      · rw [← hprod]
        unfold updatedRow
        rw [hn]
      · have hmem : product ∈ db.products := getProduct_mem hfind
        have hpe : (product.id == pid) = true := beq_iff_eq.mpr (getProduct_id hfind)
        have hm := List.mem_map_of_mem
          (fun q => if q.id == pid then updatedRow product p t else q) hmem
        simp only [hpe, if_true] at hm
        rw [← hprod]
        exact hm

/-- One purchase-endpoint call preserves non-negativity of the stock of the
product with any given id, provided the requested quantity is positive (as the
pydantic PositiveInt boundary guarantees). -/
theorem purchaseState_stock_nonneg (db : Db) (p : TransactionCreate)
    (t1 t2 : Nat) (pid : Nat) (hq : 1 ≤ p.quantity)
    (h0 : ∀ q, getProduct db pid = some q → 0 ≤ q.stock) :
    ∀ q, getProduct (purchaseState db p t1 t2) pid = some q → 0 ≤ q.stock := by
  intro q hget
  cases hres : purchase db p t1 t2 with
  | error e =>
    rw [purchaseState_error hres] at hget
    exact h0 q hget
  | ok r =>
    obtain ⟨db', tx⟩ := r
    rw [purchaseState_ok hres] at hget
    obtain ⟨product, hk, hfind, hins, hprods, -, -, -, -⟩ := purchase_ok_inv hres
    have hid0 := getProduct_id hfind
    have hid : (adjustedRow product p t1).id = p.product_id := by
      unfold adjustedRow
      exact hid0
    by_cases hpid : pid = p.product_id
    · subst hpid
      have hupd := find?_map_update p.product_id (adjustedRow product p t1) hid
        db.products product hfind
      unfold getProduct at hget
      rw [hprods, hupd] at hget
      obtain rfl : adjustedRow product p t1 = q := Option.some.inj hget
      have hstock : 0 ≤ product.stock := h0 product hfind
      unfold adjustedRow
      by_cases hkind : p.type = "purchase"
      · simp only [hkind, if_true]
        omega
      · have hsale : p.type = "sale" := hk.resolve_left hkind
        have hge : ¬ product.stock < p.quantity := fun hlt => hins ⟨hsale, hlt⟩
        simp only [if_neg hkind]
        omega
    · have hframe := find?_map_frame p.product_id pid (adjustedRow product p t1)
        hid hpid db.products
      unfold getProduct at hget
      rw [hprods, hframe] at hget
      exact h0 q hget

/-- Non-negativity of the stock of a product is preserved by any finite sequence of
purchase-endpoint calls with positive quantities. -/
theorem applySeq_stock_nonneg_aux (pid : Nat) :
    ∀ (ops : List (TransactionCreate × Nat × Nat)) (db : Db),
      (∀ o ∈ ops, 1 ≤ o.1.quantity) →
      (∀ q, getProduct db pid = some q → 0 ≤ q.stock) →
      ∀ q, getProduct (applySeq db ops) pid = some q → 0 ≤ q.stock := by
  intro ops
  induction ops with
  | nil => intro db _ h0; exact h0
  | cons o ops ih =>
    intro db hq h0
    have hstep := purchaseState_stock_nonneg db o.1 o.2.1 o.2.2 pid
      (hq o (List.mem_cons_self o ops)) h0
    have htail : ∀ o' ∈ ops, 1 ≤ o'.1.quantity := fun o' ho' =>
      hq o' (List.mem_cons_of_mem o ho')
    exact ih (purchaseState db o.1 o.2.1 o.2.2) htail hstep

/-- A second create call whose stripped name coincides with that of a product
just created is rejected by the unique-name constraint, and the first row is
still in the table. -/
theorem create_second_dup {db : Db} {p1 p2 : ProductCreate} {t1 t2 t3 t4 : Nat}
    {db1 : Db} {prod1 : Product}
    (hstrip : pyStrip p2.name = pyStrip p1.name)
    (h1 : create_product db p1 t1 t2 = .ok (db1, prod1)) :
    create_product db1 p2 t3 t4 = .error .duplicateName ∧
    prod1 ∈ db1.products := by
  obtain ⟨-, hprods1, -, -, -, hname1, -, -, -, -, -, -⟩ := create_ok_inv h1
  have hmem : prod1 ∈ db1.products := by
    rw [hprods1]
    exact List.mem_append_right _ (List.mem_singleton_self _)
  have hany : db1.products.any (fun q => q.name == pyStrip p2.name) = true := by
    apply List.any_eq_true.mpr
    refine ⟨prod1, hmem, ?_⟩
    rw [hstrip, ← hname1]
    exact beq_iff_eq.mpr rfl
  refine ⟨?_, hmem⟩
  unfold create_product
  rw [if_pos hany]

/-! ## Concrete rows and requests used to exercise the theorems -/

def milkRow : Product :=
  { id := 1, name := "Milk", category := none, price := 100, stock := 5,
    description := none, created_at := 0, updated_at := 0 }

def demoDb : Db :=
  { products := [milkRow], transactions := [], nextProductId := 2, nextTxId := 1 }

def emptyDb : Db :=
  { products := [], transactions := [], nextProductId := 1, nextTxId := 1 }

def buyReq : TransactionCreate :=
  { product_id := 1, type := "purchase", quantity := 10, unit_price := 100,
    note := none }

def sellReq : TransactionCreate :=
  { product_id := 1, type := "sale", quantity := 10, unit_price := 100,
    note := none }

def refundReq : TransactionCreate :=
  { product_id := 1, type := "refund", quantity := 1, unit_price := 100,
    note := none }

def bigSellReq : TransactionCreate :=
  { product_id := 1, type := "sale", quantity := 9, unit_price := 100,
    note := none }

def demoOps : List (TransactionCreate × Nat × Nat) :=
  [(buyReq, 1, 2), (bigSellReq, 3, 4)]

def createMilkPadded : ProductCreate :=
  { name := " Milk ", category := none, price := 100, stock := 5,
    description := none }

/-- The state and row committed by creating the padded-name Milk product in
the empty database. -/
def cDb1 : Db := ((create_product emptyDb createMilkPadded 0 0).toOption.getD default).1

def cProd1 : Product := ((create_product emptyDb createMilkPadded 0 0).toOption.getD default).2

/-- The state and row committed by a purchase of 10 on the demo database with
clock readings 0 and 1. -/
def cexDb : Db := ((purchase demoDb buyReq 0 1).toOption.getD default).1

def cexTx : Transaction := ((purchase demoDb buyReq 0 1).toOption.getD default).2

/-- The state and row committed by the same purchase when both clock readings
are 7. -/
def eqDb : Db := ((purchase demoDb buyReq 7 7).toOption.getD default).1

def eqTx : Transaction := ((purchase demoDb buyReq 7 7).toOption.getD default).2

/-! ## The claims -/

/-- Claim C1: every call of the purchase endpoint (the Transaction Processor
apply operation) that fails, for any reason, leaves the committed state
byte-for-byte unchanged: in particular the product looked up by the request
and the number of ledger records are as before the call, and no intermediate
state is observable. -/
theorem purchase_failure_is_atomic (db : Db) (p : TransactionCreate)
    (t1 t2 : Nat) (e : ApiError) (h : purchase db p t1 t2 = .error e) :
    purchaseState db p t1 t2 = db ∧
    getProduct (purchaseState db p t1 t2) p.product_id =
      getProduct db p.product_id ∧
    (purchaseState db p t1 t2).transactions.length =
      db.transactions.length := by
  have hs := purchaseState_error h
  exact ⟨hs, by rw [hs], by rw [hs]⟩

theorem purchase_failure_is_atomic_check :
    purchaseState demoDb refundReq 0 0 = demoDb ∧
    getProduct (purchaseState demoDb refundReq 0 0) refundReq.product_id =
      getProduct demoDb refundReq.product_id ∧
    (purchaseState demoDb refundReq 0 0).transactions.length =
      demoDb.transactions.length :=
  purchase_failure_is_atomic demoDb refundReq 0 0 .invalidKind rfl

/-- Claim C2: a sale on an existing product whose requested quantity exceeds
the current stock fails with the InsufficientStock error, and the committed
state is exactly the state before the call: the stock check at line 230 comes
before any write. -/
theorem sale_insufficient_stock_rejected (db : Db) (p : TransactionCreate)
    (t1 t2 : Nat) (prod : Product) (hs : p.type = "sale")
    (hf : getProduct db p.product_id = some prod)
    (hlt : prod.stock < p.quantity) :
    purchase db p t1 t2 = .error .insufficientStock ∧
    purchaseState db p t1 t2 = db := by
  constructor
  · exact purchase_insufficient hs hf hlt
  · exact purchaseState_error (purchase_insufficient hs hf hlt)

theorem sale_insufficient_stock_rejected_check :
    purchase demoDb bigSellReq 10 11 = .error .insufficientStock ∧
    purchaseState demoDb bigSellReq 10 11 = demoDb :=
  sale_insufficient_stock_rejected demoDb bigSellReq 10 11 milkRow rfl rfl
    (by decide)

/-- Claim C3: a product whose stock is non-negative keeps a non-negative stock
across any finite sequence of purchase-endpoint calls with positive
quantities (failed calls leave the state unchanged, successful ones preserve
the bound). -/
theorem stock_nonneg_invariant (db : Db)
    (ops : List (TransactionCreate × Nat × Nat)) (pid : Nat)
    (h0 : ∀ q, getProduct db pid = some q → 0 ≤ q.stock)
    (hq : ∀ o ∈ ops, 1 ≤ o.1.quantity) :
    ∀ q, getProduct (applySeq db ops) pid = some q → 0 ≤ q.stock :=
  applySeq_stock_nonneg_aux pid ops db hq h0

theorem stock_nonneg_invariant_check :
    0 ≤ ((getProduct (applySeq demoDb demoOps) 1).getD default).stock := by
  refine stock_nonneg_invariant demoDb demoOps 1 ?_ (by decide) _ ?_
  · intro q hq'
    have hq2 : some milkRow = some q := hq'
    rw [← Option.some.inj hq2]
    decide
  · rfl

/-- Claim C4: a successful purchase-endpoint call on an existing product
changes its stock by exactly the requested quantity (up for purchase, down
for sale) and appends exactly one transaction row, carrying the given kind,
quantity, unit price and note; the ledger is otherwise untouched. -/
theorem purchase_success_effect (db : Db) (p : TransactionCreate)
    (t1 t2 : Nat) (db' : Db) (tx : Transaction) (prod : Product)
    (h : purchase db p t1 t2 = .ok (db', tx))
    (hf : getProduct db p.product_id = some prod) (hq : 1 ≤ p.quantity) :
    (∃ prod', getProduct db' p.product_id = some prod' ∧
       (p.type = "purchase" → prod'.stock = prod.stock + p.quantity) ∧
       (p.type = "sale" → prod'.stock = prod.stock - p.quantity)) ∧
    db'.transactions = db.transactions ++ [tx] ∧
    tx.type = p.type ∧ tx.quantity = p.quantity ∧
    tx.unit_price = p.unit_price ∧ tx.note = p.note := by
  obtain ⟨product, hk, hfind, hins, hprods, htxs, -, -, htx⟩ := purchase_ok_inv h
  have hpp : product = prod := by
    rw [hfind] at hf
    exact Option.some.inj hf
  subst hpp
  have hid0 := getProduct_id hfind
  have hid : (adjustedRow product p t1).id = p.product_id := by
    unfold adjustedRow
    exact hid0
  have hupd := find?_map_update p.product_id (adjustedRow product p t1) hid
    db.products product hfind
  refine ⟨⟨adjustedRow product p t1, ?_, ?_, ?_⟩, htxs, ?_, ?_, ?_, ?_⟩
  · unfold getProduct
    rw [hprods]
    exact hupd
  · intro hkind
    unfold adjustedRow
    simp [hkind]
  · intro hkind
    have hnp : p.type ≠ "purchase" := by rw [hkind]; decide
    unfold adjustedRow
    simp [if_neg hnp]
  · rw [htx]; rfl
  · rw [htx]; rfl
  · rw [htx]; rfl
  · rw [htx]; rfl

theorem purchase_success_effect_check :
    cexDb.transactions = demoDb.transactions ++ [cexTx] ∧
    cexTx.type = buyReq.type ∧ cexTx.quantity = buyReq.quantity := by
  have h := purchase_success_effect demoDb buyReq 0 1 cexDb cexTx milkRow rfl
    rfl (by decide)
  exact ⟨h.2.1, h.2.2.1, h.2.2.2.1⟩

/-- Claim C5: a successful purchase of q followed by a successful sale of q on
the same product restores the stock to its value before the two calls, and
appends exactly two ledger records. -/
theorem purchase_sale_symmetry (db : Db) (pid : Nat) (q up1 up2 : Int)
    (n1 n2 : Option String) (t1 t2 t3 t4 : Nat) (db1 db2 : Db)
    (tx1 tx2 : Transaction)
    (h1 : purchase db
      ({ product_id := pid, type := "purchase", quantity := q,
         unit_price := up1, note := n1 } : TransactionCreate) t1 t2
      = .ok (db1, tx1))
    (h2 : purchase db1
      ({ product_id := pid, type := "sale", quantity := q,
         unit_price := up2, note := n2 } : TransactionCreate) t3 t4
      = .ok (db2, tx2)) :
    (getProduct db2 pid).map Product.stock =
      (getProduct db pid).map Product.stock ∧
    db2.transactions.length = db.transactions.length + 2 := by
  obtain ⟨prodA, -, hfA, -, hprodsA, htxsA, -, -, -⟩ := purchase_ok_inv h1
  obtain ⟨prodB, -, hfB, -, hprodsB, htxsB, -, -, -⟩ := purchase_ok_inv h2
  have hidA0 := getProduct_id hfA
  have hidB0 := getProduct_id hfB
  constructor
  · -- track the product row through the two calls
    have hidA : (adjustedRow prodA
        ({ product_id := pid, type := "purchase", quantity := q,
           unit_price := up1, note := n1 } : TransactionCreate) t1).id = pid := by
      unfold adjustedRow
      exact hidA0
    have hupdA := find?_map_update pid (adjustedRow prodA
        ({ product_id := pid, type := "purchase", quantity := q,
           unit_price := up1, note := n1 } : TransactionCreate) t1) hidA
        db.products prodA hfA
    have hgetB : getProduct db1 pid = some (adjustedRow prodA
        ({ product_id := pid, type := "purchase", quantity := q,
           unit_price := up1, note := n1 } : TransactionCreate) t1) := by
      unfold getProduct
      rw [hprodsA]
      exact hupdA
    have hBA : prodB = adjustedRow prodA
        ({ product_id := pid, type := "purchase", quantity := q,
           unit_price := up1, note := n1 } : TransactionCreate) t1 := by
      rw [hgetB] at hfB
      exact (Option.some.inj hfB).symm
    have hidB : (adjustedRow prodB
        ({ product_id := pid, type := "sale", quantity := q,
           unit_price := up2, note := n2 } : TransactionCreate) t3).id = pid := by
      unfold adjustedRow
      exact hidB0
    have hupdB := find?_map_update pid (adjustedRow prodB
        ({ product_id := pid, type := "sale", quantity := q,
           unit_price := up2, note := n2 } : TransactionCreate) t3) hidB
        db1.products prodB hfB
    have hget2 : getProduct db2 pid = some (adjustedRow prodB
        ({ product_id := pid, type := "sale", quantity := q,
           unit_price := up2, note := n2 } : TransactionCreate) t3) := by
      unfold getProduct
      rw [hprodsB]
      exact hupdB
    rw [hget2, hfA]
    have hstockB : (adjustedRow prodB
        ({ product_id := pid, type := "sale", quantity := q,
           unit_price := up2, note := n2 } : TransactionCreate) t3).stock
        = prodB.stock - q := by
      simp [adjustedRow]
    have hstockA : prodB.stock = prodA.stock + q := by
      rw [hBA]
      simp [adjustedRow]
    simp only [Option.map_some']
    rw [hstockB, hstockA]
    congr 1
    omega
  · rw [htxsB, htxsA]
    simp

/-- The states and rows committed by a purchase of 10 followed by a sale of 10
on the demo database. -/
def symDb1 : Db := ((purchase demoDb buyReq 3 4).toOption.getD default).1

def symTx1 : Transaction := ((purchase demoDb buyReq 3 4).toOption.getD default).2

def symDb2 : Db := ((purchase symDb1 sellReq 5 6).toOption.getD default).1

def symTx2 : Transaction := ((purchase symDb1 sellReq 5 6).toOption.getD default).2

theorem purchase_sale_symmetry_check :
    (getProduct symDb2 1).map Product.stock =
      (getProduct demoDb 1).map Product.stock ∧
    symDb2.transactions.length = demoDb.transactions.length + 2 :=
  purchase_sale_symmetry demoDb 1 10 100 100 none none 3 4 5 6 symDb1 symDb2
    symTx1 symTx2 rfl rfl

/-- Claim C6: the purchase handler validates in source order: a kind other
than purchase or sale fails with InvalidKind no matter whether the product
exists; with a valid kind a missing product fails with ProductNotFound; and
the InsufficientStock error can only arise once both earlier checks have
passed, on a sale whose quantity exceeds the stock of the product found. -/
theorem purchase_validation_order (db : Db) (p : TransactionCreate)
    (t1 t2 : Nat) :
    (¬(p.type = "purchase" ∨ p.type = "sale") →
       purchase db p t1 t2 = .error .invalidKind) ∧
    ((p.type = "purchase" ∨ p.type = "sale") →
       getProduct db p.product_id = none →
       purchase db p t1 t2 = .error .productNotFound) ∧
    (purchase db p t1 t2 = .error .insufficientStock →
       (p.type = "purchase" ∨ p.type = "sale") ∧
       ∃ prod, getProduct db p.product_id = some prod ∧
         p.type = "sale" ∧ prod.stock < p.quantity) := by
  refine ⟨fun hk => purchase_invalid_kind hk,
          fun hk hf => purchase_product_not_found hk hf, fun h => ?_⟩
  unfold purchase at h
  split at h
  · simp at h
  next hk =>
    split at h
    · simp at h
    next product hfind =>
      split at h
      next hcond => exact ⟨not_not.mp hk, product, hfind, hcond⟩
      · simp at h

theorem purchase_validation_order_check :
    purchase demoDb refundReq 1 2 = .error .invalidKind :=
  (purchase_validation_order demoDb refundReq 1 2).1 (by decide)

/-- Claim C7: creating a product and then creating another with the very same
name makes the second call fail with DuplicateName, the committed state is
untouched and the first row is still stored; a second name whose stripped
form is stored nowhere (in particular one differing in letter case, since the
uniqueness test is exact string equality) is accepted. -/
theorem create_duplicate_name_rejected (db : Db) (p1 p2 : ProductCreate)
    (t1 t2 t3 t4 : Nat) (db1 : Db) (prod1 : Product)
    (h1 : create_product db p1 t1 t2 = .ok (db1, prod1)) :
    (p2.name = p1.name →
       create_product db1 p2 t3 t4 = .error .duplicateName ∧
       createState db1 p2 t3 t4 = db1 ∧ prod1 ∈ db1.products) ∧
    (db1.products.any (fun q => q.name == pyStrip p2.name) = false →
       ∃ db2 prod2, create_product db1 p2 t3 t4 = .ok (db2, prod2)) := by
  constructor
  · intro hsame
    have hstrip : pyStrip p2.name = pyStrip p1.name := by rw [hsame]
    obtain ⟨herr, hmem⟩ := create_second_dup hstrip h1
    exact ⟨herr, createState_error herr, hmem⟩
  · intro hno
    cases hres : create_product db1 p2 t3 t4 with
    | ok r =>
      obtain ⟨db2, prod2⟩ := r
      exact ⟨db2, prod2, rfl⟩
    | error e =>
      exfalso
      unfold create_product at hres
      rw [if_neg (by simp [hno])] at hres
      simp at hres

theorem create_duplicate_name_rejected_check :
    create_product cDb1 createMilkPadded 1 1 = .error .duplicateName ∧
    createState cDb1 createMilkPadded 1 1 = cDb1 ∧
    cProd1 ∈ cDb1.products :=
  (create_duplicate_name_rejected emptyDb createMilkPadded createMilkPadded
    0 0 1 1 cDb1 cProd1 rfl).1 rfl

/-- Claim C8 as stated is false: the purchase handler reads the clock twice
(utcnow at line 238 for product.updated_at and at line 246 for the new
transaction created_at), so when the two readings differ — here 0 and 1 —
the updated product and the appended ledger record carry different
timestamps. -/
theorem purchase_one_timestamp_refuted :
    purchase demoDb buyReq 0 1 = .ok (cexDb, cexTx) ∧
    (getProduct cexDb buyReq.product_id).map Product.updated_at = some 0 ∧
    cexTx.created_at = 1 ∧
    (getProduct cexDb buyReq.product_id).map Product.updated_at ≠
      some cexTx.created_at := by
  refine ⟨rfl, rfl, rfl, ?_⟩
  decide

/-- Claim C8 amended: within a successful apply call the product updated_at
is set to the first clock reading and the new ledger record created_at to the
second; the two agree exactly when the two utcnow readings coincide, which
the code does not force. -/
theorem purchase_two_clock_readings (db : Db) (p : TransactionCreate)
    (t1 t2 : Nat) (db' : Db) (tx : Transaction)
    (h : purchase db p t1 t2 = .ok (db', tx)) :
    (getProduct db' p.product_id).map Product.updated_at = some t1 ∧
    tx.created_at = t2 ∧
    (t1 = t2 →
      (getProduct db' p.product_id).map Product.updated_at =
        some tx.created_at) := by
  obtain ⟨product, -, hfind, -, hprods, -, -, -, htx⟩ := purchase_ok_inv h
  have hid0 := getProduct_id hfind
  have hid : (adjustedRow product p t1).id = p.product_id := by
    unfold adjustedRow
    exact hid0
  have hupd := find?_map_update p.product_id (adjustedRow product p t1) hid
    db.products product hfind
  have hget : getProduct db' p.product_id = some (adjustedRow product p t1) := by
    unfold getProduct
    rw [hprods]
    exact hupd
  have hts : tx.created_at = t2 := by rw [htx]; rfl
  refine ⟨by rw [hget]; rfl, hts, fun hteq => ?_⟩
  rw [hget, hts, ← hteq]
  rfl

theorem purchase_two_clock_readings_check :
    (getProduct eqDb buyReq.product_id).map Product.updated_at = some 7 ∧
    eqTx.created_at = 7 ∧
    (7 = 7 →
      (getProduct eqDb buyReq.product_id).map Product.updated_at =
        some eqTx.created_at) :=
  purchase_two_clock_readings demoDb buyReq 7 7 eqDb eqTx rfl

/-- Claim C9: a successful purchase-endpoint call modifies only the stock and
updated_at of the product it targets: its id, name, category, price,
description and created_at are carried over unchanged, every product with a
different id queries identically to before, the products table keeps its
length, and the pre-existing prefix of the ledger is unchanged. -/
theorem purchase_frame_condition (db : Db) (p : TransactionCreate)
    (t1 t2 : Nat) (db' : Db) (tx : Transaction) (prod : Product)
    (h : purchase db p t1 t2 = .ok (db', tx))
    (hf : getProduct db p.product_id = some prod) :
    (∃ prod', getProduct db' p.product_id = some prod' ∧
       prod'.id = prod.id ∧ prod'.name = prod.name ∧
       prod'.category = prod.category ∧ prod'.price = prod.price ∧
       prod'.description = prod.description ∧
       prod'.created_at = prod.created_at) ∧
    (∀ pid, pid ≠ p.product_id → getProduct db' pid = getProduct db pid) ∧
    db'.products.length = db.products.length ∧
    db'.transactions.take db.transactions.length = db.transactions := by
  obtain ⟨product, -, hfind, -, hprods, htxs, -, -, -⟩ := purchase_ok_inv h
  have hpp : product = prod := by
    rw [hfind] at hf
    exact Option.some.inj hf
  subst hpp
  have hid0 := getProduct_id hfind
  have hid : (adjustedRow product p t1).id = p.product_id := by
    unfold adjustedRow
    exact hid0
  refine ⟨⟨adjustedRow product p t1, ?_, rfl, rfl, rfl, rfl, rfl, rfl⟩,
          ?_, ?_, ?_⟩
  · unfold getProduct
    rw [hprods]
    exact find?_map_update p.product_id (adjustedRow product p t1) hid
      db.products product hfind
  · intro pid hpid
    unfold getProduct
    rw [hprods]
    exact find?_map_frame p.product_id pid (adjustedRow product p t1) hid
      hpid db.products
  · rw [hprods]
    exact List.length_map _ _
  · rw [htxs]
    exact List.take_left _ _

theorem purchase_frame_condition_check :
    ((getProduct cexDb buyReq.product_id).getD default).name = milkRow.name ∧
    getProduct cexDb 77 = getProduct demoDb 77 ∧
    cexDb.products.length = demoDb.products.length ∧
    cexDb.transactions.take demoDb.transactions.length =
      demoDb.transactions := by
  have h := purchase_frame_condition demoDb buyReq 0 1 cexDb cexTx milkRow
    rfl rfl
  obtain ⟨⟨prod', hget, -, hname, -, -, -, -⟩, hframe, hlen, htake⟩ := h
  refine ⟨?_, hframe 77 (by decide), hlen, htake⟩
  rw [hget]
  exact hname

/-- Claim C10: both catalog create and update strip surrounding whitespace
from the name before storing it: the stored and returned name of a create is
the stripped input, an update that provides a name stores its stripped form,
two creates whose names agree after stripping collide as duplicates, and the
stored name can differ from the caller input, as with the padded name
" Milk ". -/
theorem create_update_strip_names :
    (∀ (db : Db) (p : ProductCreate) (t1 t2 : Nat) (db' : Db) (prod : Product),
       create_product db p t1 t2 = .ok (db', prod) →
       prod.name = pyStrip p.name ∧ prod ∈ db'.products) ∧
    (∀ (db : Db) (pid : Nat) (p : ProductUpdate) (t : Nat) (db' : Db)
       (prod : Product) (n : String), p.name = some n →
       update_product db pid p t = .ok (db', prod) →
       prod.name = pyStrip n ∧ prod ∈ db'.products) ∧
    (∀ (db : Db) (p1 p2 : ProductCreate) (t1 t2 t3 t4 : Nat) (db1 : Db)
       (prod1 : Product), pyStrip p2.name = pyStrip p1.name →
       create_product db p1 t1 t2 = .ok (db1, prod1) →
       create_product db1 p2 t3 t4 = .error .duplicateName) ∧
    pyStrip " Milk " = "Milk" ∧ " Milk " ≠ "Milk" := by
  refine ⟨?_, ?_, ?_, by decide, by decide⟩
  · intro db p t1 t2 db' prod h
    obtain ⟨-, hprods, -, -, -, hname, -, -, -, -, -, -⟩ := create_ok_inv h
    refine ⟨hname, ?_⟩
    rw [hprods]
    exact List.mem_append_right _ (List.mem_singleton_self _)
  · intro db pid p t db' prod n hn h
    exact update_ok_name hn h
  · intro db p1 p2 t1 t2 t3 t4 db1 prod1 hstrip h1
    exact (create_second_dup hstrip h1).1

theorem create_update_strip_names_check :
    cProd1.name = pyStrip createMilkPadded.name ∧ cProd1 ∈ cDb1.products :=
  create_update_strip_names.1 emptyDb createMilkPadded 0 0 cDb1 cProd1 rfl
